import Mathlib

/-!
Verification development for the GeoChat conversational backend
(`backend/agent.py`).  The workflow is a four-node directed graph
(intent classifier → geo-query extractor → location resolver → flood
analysis producer) over a single conversation-turn state record.

External collaborators (the completion provider, the geocoding provider
and the geospatial platform) are modelled as an `Env` of oracles: each
oracle value is one possible outcome of the corresponding blocking call
(`Except.error` models a raised exception).  Python floats are modelled
as rationals; Python decimal rendering of floats (`:.4f`, `repr`) is
abstracted by `pyFloatRepr`, whose concrete text no property below
depends on.  Python string operations (`strip`, `lower`, `split`,
`startswith`, `in`) are reimplemented character-list-by-character-list
so that every definition evaluates by kernel reduction.
-/

namespace GeoChat

/-- Python whitespace set used by `str.strip`. -/
def pySpace (c : Char) : Bool :=
  c == ' ' || c == '\t' || c == '\n' || c == '\r' || c == '\x0b' || c == '\x0c'

/-- Python `str.strip` on a character list: drop whitespace at both ends. -/
def pyStripList (l : List Char) : List Char :=
  ((l.dropWhile pySpace).reverse.dropWhile pySpace).reverse

/-- Python `str.strip`. -/
def pyStrip (s : String) : String := String.mk (pyStripList s.toList)

/-- Python `str.lower` (ASCII is all the source needs). -/
def pyLower (s : String) : String := String.mk (s.toList.map Char.toLower)

/-- Character-list version of Python `str.startswith`. -/
def listStartsWith : List Char → List Char → Bool
  | _, [] => true
  | [], _ :: _ => false
  | c :: cs, p :: ps => c == p && listStartsWith cs ps

/-- Python `str.startswith`. -/
def pyStartswith (s pre : String) : Bool := listStartsWith s.toList pre.toList

/-- Character-list version of Python substring containment (`pat in s`). -/
def listHasSub : List Char → List Char → Bool
  | [], pat => pat.isEmpty
  | c :: cs, pat => listStartsWith (c :: cs) pat || listHasSub cs pat

/-- Python substring containment `pat in s`. -/
def pyContains (s pat : String) : Bool := listHasSub s.toList pat.toList

/-- Split a character list on a separator character; Python `str.split(sep)`
semantics (empty pieces kept, `[""]` on empty input). -/
def splitOnChar (sep : Char) : List Char → List (List Char)
  | [] => [[]]
  | c :: cs =>
    let rest := splitOnChar sep cs
    if c == sep then [] :: rest
    else
      match rest with
      | [] => [[c]]
      | r :: rs => (c :: r) :: rs

/-- Python `answer.split(chr(10))`: the reply body cut into lines. -/
def pySplitNL (s : String) : List String := (splitOnChar '\n' s.toList).map String.mk

/-- Everything after the first colon, character-list level. -/
def afterFirstColon : List Char → List Char
  | [] => []
  | c :: cs => if c == ':' then cs else afterFirstColon cs

/-- Python `line.split(chr(58), 1)[1]`: the remainder after the first colon
(the call sites guarantee a colon is present). -/
def pyAfterColon (s : String) : String := String.mk (afterFirstColon s.toList)

/-- Python truthiness of an optional string (`None` and the empty string are
falsy). -/
def pyTruthyStr : Option String → Bool
  | none => false
  | some s => !s.isEmpty

/-- Python truthiness of an optional float (`None` and `0.0` are falsy). -/
def pyTruthyNum : Option ℚ → Bool
  | none => false
  | some x => x != 0

/-- Python `location_name or default`: replace a falsy value by the default. -/
def pyOrDefault (name : Option String) (dflt : String) : String :=
  match name with
  | some s => if s.isEmpty then dflt else s
  | none => dflt

/-- Abstraction of Python float rendering used in message text. -/
def pyFloatRepr (q : ℚ) : String :=
  toString q.num ++ ("/") ++ toString q.den

/-- The geemap map handle assembled by `flood_vulnerability`: its center,
zoom and the names of the layers added to it, in order. -/
structure MapObj where
  centerLat : ℚ
  centerLng : ℚ
  zoom : Nat
  layerNames : List String
  deriving DecidableEq

/-- One entry of the `layers` list of the frontend map payload. -/
structure MapLayer where
  name : String
  url : String
  attribution : String
  visible : Bool
  type : String
  opacity : Option ℚ
  minZoom : Option Nat
  maxZoom : Option Nat
  deriving DecidableEq

/-- One entry of the `markers` list of the frontend map payload.  The popup
is the raw (possibly absent) location value the node reads from the state. -/
structure MapMarker where
  posLat : ℚ
  posLng : ℚ
  popup : Option String
  color : Option String
  deriving DecidableEq

/-- The `map_data` payload assembled for the frontend (dict keys that a
branch does not write are `none`). -/
structure MapData where
  centerLat : ℚ
  centerLng : ℚ
  zoom : Nat
  analysis : Option String
  error : Option String
  layers : Option (List MapLayer)
  markers : Option (List MapMarker)
  deriving DecidableEq

/-- The conversation-turn state record (`AgentState` in the source). -/
structure AgentState where
  input : String
  intent : Option String
  location : Option String
  analysis : Option String
  lat : Option ℚ
  lon : Option ℚ
  final_result : Option String
  map_object : Option MapObj
  map_data : Option MapData
  deriving DecidableEq

/-- Fresh per-turn state: only the user utterance is populated. -/
def AgentState.init (input : String) : AgentState :=
  ⟨input, none, none, none, none, none, none, none, none⟩

/-- Outcomes of the external calls a single turn can make.  `Except.error`
models the call raising; the completion replies are the normalized text of
the model's answer. -/
structure Env where
  intentReply : Except String String
  geoReply : Except String String
  geocode : String → Except String (Option (ℚ × ℚ))
  mapInit : Except String Unit
  eeAnalysis : Except String (Option ℚ)
  layerUrls : Except String (String × String × String)

/-- The classifier's whitelist on the stripped reply text: only the exact
literals pass, anything else leaves the intent `None`. -/
def parsedIntent (text : String) : Option String :=
  if text == ("normal") || text == ("query") then some text else none

/-- `intent_node`: classify the utterance through the whitelist.  The
completion call is not guarded, so its failure propagates. -/
def intent_node (env : Env) (s : AgentState) : Except String AgentState :=
  match env.intentReply with
  | Except.error e => Except.error e
  | Except.ok raw =>
    Except.ok { s with intent := parsedIntent (pyStrip raw) }

/-- Does a (stripped) reply line start with the location label? -/
def lineIsLoc (line : String) : Bool := pyStartswith (pyLower line) ("location:")

/-- Does a (stripped) reply line start with the analysis label? -/
def lineIsAna (line : String) : Bool := pyStartswith (pyLower line) ("analysis:")

/-- Is a (stripped) reply line acceptable as a bare location: non-empty and
mentioning neither label-like fragment? -/
def lineBareOk (line : String) : Bool :=
  !line.isEmpty && !pyContains (pyLower line) ("analysis:") &&
    !pyContains (pyLower line) ("reply:")

/-- One iteration of the extractor's line scan over the
`(location, analysis)` accumulator. -/
def lineStep (acc : Option String × Option String) (rawLine : String) :
    Option String × Option String :=
  let line := pyStrip rawLine
  if lineIsLoc line then (some (pyStrip (pyAfterColon line)), acc.2)
  else if lineIsAna line then (acc.1, some (pyStrip (pyAfterColon line)))
  else if !pyTruthyStr acc.1 && lineBareOk line then (some line, acc.2)
  else acc

/-- The extractor's line-scanning parse of a reply body already cut into
lines. -/
def parseLines (ls : List String) : Option String × Option String :=
  ls.foldl lineStep (none, none)

/-- `geo_query_node`: ask the extractor; a reply containing a clarification
sentinel anywhere returns the state untouched, otherwise the line scan
fills `location` and `analysis`.  The completion call is not guarded. -/
def geo_query_node (env : Env) (s : AgentState) : Except String AgentState :=
  match env.geoReply with
  | Except.error e => Except.error e
  | Except.ok raw =>
    let answer := pyStrip raw
    if pyContains answer ("ASK_LOCATION") then Except.ok s
    else if pyContains answer ("ASK_ANALYSIS") then Except.ok s
    else
      let la := parseLines (pySplitNL answer)
      Except.ok { s with location := la.1, analysis := la.2 }

/-- `location_helper_node`: geocode the stored location with the fixed
country qualifier; a miss or a raised provider error returns the state
unchanged (all provider outcomes are absorbed by the node's guard). -/
def location_helper_node (env : Env) (s : AgentState) : AgentState :=
  if !pyTruthyStr s.location then s
  else
    match env.geocode ((s.location.getD ("")) ++ (", India")) with
    | Except.error _ => s
    | Except.ok none => s
    | Except.ok (some p) => { s with lat := some p.1, lon := some p.2 }

/-- High-tier canned recommendation. -/
def highRecommendation : String :=
  "This area has high flood risk. Avoid construction and consider flood mitigation measures."

/-- Moderate-tier canned recommendation. -/
def moderateRecommendation : String :=
  "This area has moderate flood risk. Consider flood-resistant construction."

/-- Low-tier canned recommendation. -/
def lowRecommendation : String :=
  "This area has low flood risk, but stay informed about local conditions."

/-- Risk classification of the mean flood depth, with its canned
recommendation (the two strict-threshold branches of
`flood_vulnerability`). -/
def riskOfDepth (flood_value : ℚ) : String × String :=
  if flood_value > 0.5 then (("High"), highRecommendation)
  else if flood_value > 0.2 then (("Moderate"), moderateRecommendation)
  else (("Low"), lowRecommendation)

/-- Head of the narrative report text: title and coordinates lines (the
parts that interpolate the location label and the point). -/
def analysisHead (lat lon : ℚ) (location_name : Option String) : String :=
  ("\n            ## Flood Hazard Assessment for ") ++
    pyOrDefault location_name ("Selected Location") ++
    ("\n            **Coordinates:** ") ++ pyFloatRepr lat ++ (", ") ++ pyFloatRepr lon

/-- Tail of the narrative report text: risk level, depth index, findings and
recommendations (grouped to the right). -/
def analysisTail (flood_value : ℚ) (risk_level recommendation : String) : String :=
  ("\n            **Flood Risk Level:** ") ++ (risk_level ++
    (("\n            **Flood Depth Index (0-1):** ") ++ (pyFloatRepr flood_value ++
      (("\n            \n            ### Key Findings:\n            - Blue areas indicate potential flood hazard zones (0-1m depth)\n            - Darker blue shows higher flood risk areas\n            - Elevation data provides additional context\n            \n            ### Recommendations:\n            ") ++
        (recommendation ++
          ("\n            - Monitor local flood warnings and advisories\n            - Consult local authorities for detailed flood risk information\n            - Consider flood insurance if available in your area\n            "))))))

/-- The full narrative report text of a successful analysis. -/
def analysisText (lat lon flood_value : ℚ) (location_name : Option String)
    (risk_level recommendation : String) : String :=
  analysisHead lat lon location_name ++ analysisTail flood_value risk_level recommendation

/-- `flood_vulnerability` (the producer function): build the map handle and
the narrative.  Outer failure (map construction) yields an error string and
no map; inner failure (platform analysis) yields a marker-only basic map;
success classifies the mean depth, defaulting a missing depth statistic
to zero. -/
def flood_vulnerability (env : Env) (lat lon : ℚ) (location_name : Option String) :
    String × Option MapObj :=
  match env.mapInit with
  | Except.error e => (("Error in flood_vulnerability: ") ++ e, none)
  | Except.ok _ =>
    match env.eeAnalysis with
    | Except.error e =>
      (("Basic map for (") ++ pyFloatRepr lat ++ (", ") ++ pyFloatRepr lon ++
          ("). Error in flood analysis: ") ++ e,
        some ⟨lat, lon, 12, [("SATELLITE"), ("Selected Location")]⟩)
    | Except.ok stats =>
      let flood_value := stats.getD 0
      let rl := riskOfDepth flood_value
      (analysisText lat lon flood_value location_name rl.1 rl.2,
        some ⟨lat, lon, 12,
          [("SATELLITE"), ("Flood Hazard (0-1m depth)"), ("Elevation (m)"),
            ("Selected Location")]⟩)

/-- The fixed error text for absent coordinates. -/
def missingCoordsMsg : String := "Missing coordinates for flood analysis"

/-- The synthetic error payload for absent coordinates: fixed default
center, no layers, no markers. -/
def missingCoordsMapData : MapData :=
  { centerLat := 11.0168, centerLng := 76.9558, zoom := 12,
    analysis := none, error := some missingCoordsMsg, layers := none, markers := none }

/-- The state update applied when the coordinate guard fails: only the
result text and the map payload change. -/
def missingCoordsResult (s : AgentState) : AgentState :=
  { s with final_result := some missingCoordsMsg, map_data := some missingCoordsMapData }

/-- The satellite base layer of the full map payload. -/
def satelliteLayer : MapLayer :=
  { name := "Satellite", url := "https://mt1.google.com/vt/lyrs=s&x={x}&y={y}&z={z}",
    attribution := "Google Satellite", visible := true, type := "raster",
    opacity := none, minZoom := none, maxZoom := none }

/-- The flood-risk tile layer of the full map payload. -/
def floodLayer (url : String) : MapLayer :=
  { name := "Flood Risk", url := url, attribution := "Google Earth Engine",
    visible := true, type := "raster", opacity := none,
    minZoom := some 0, maxZoom := some 18 }

/-- The water-occurrence tile layer of the full map payload. -/
def waterLayer (url : String) : MapLayer :=
  { name := "Water Occurrence", url := url, attribution := "JRC Global Surface Water",
    visible := true, type := "raster", opacity := some 0.5,
    minZoom := some 0, maxZoom := some 18 }

/-- The elevation tile layer of the full map payload. -/
def elevationLayer (url : String) : MapLayer :=
  { name := "Elevation", url := url, attribution := "SRTM Elevation",
    visible := true, type := "raster", opacity := some 0.6,
    minZoom := some 0, maxZoom := some 18 }

/-- `flood_vulnerability_node`: guard the coordinates by truthiness, run the
producer, and assemble the frontend payload; a failed tile-reference
extraction degrades to a marker-only payload with an error note. -/
def flood_vulnerability_node (env : Env) (s : AgentState) : AgentState :=
  if !pyTruthyNum s.lat || !pyTruthyNum s.lon then
    { s with final_result := some missingCoordsMsg,
             map_data := some missingCoordsMapData }
  else
    let lat := s.lat.getD 0
    let lon := s.lon.getD 0
    let res := flood_vulnerability env lat lon s.location
    let redMarker : MapMarker :=
      { posLat := lat, posLng := lon, popup := s.location, color := some ("red") }
    let plainMarker : MapMarker :=
      { posLat := lat, posLng := lon, popup := s.location, color := none }
    let md : MapData :=
      match env.layerUrls with
      | Except.ok urls =>
        { centerLat := lat, centerLng := lon, zoom := 12,
          analysis := some ("flood_vulnerability"), error := none,
          layers := some [satelliteLayer, floodLayer urls.1,
            waterLayer urls.2.1, elevationLayer urls.2.2],
          markers := some [redMarker] }
      | Except.error _ =>
        { centerLat := lat, centerLng := lon, zoom := 12,
          analysis := none,
          error := some ("Could not load map layers. Please try again."),
          layers := none,
          markers := some [plainMarker] }
    { s with final_result := some res.1, map_object := res.2, map_data := some md }

/-- The nodes of the workflow graph. -/
inductive GNode
  | intent
  | geo_query
  | location_helper
  | flood_vulnerability
  deriving DecidableEq

/-- The routing lambda attached to the intent node's conditional edges. -/
def routeFromIntent (s : AgentState) : String :=
  if s.intent == some ("normal") then ("END") else ("geo_query")

/-- The unconditional tail of the graph from the extractor on
(`geo_query → location_helper → flood_vulnerability → END`), together with
the list of nodes it executes. -/
def runFromGeoQuery (env : Env) (s : AgentState) :
    Except String (AgentState × List GNode) :=
  match geo_query_node env s with
  | Except.error e => Except.error e
  | Except.ok s2 =>
    Except.ok (flood_vulnerability_node env (location_helper_node env s2),
      [GNode.geo_query, GNode.location_helper, GNode.flood_vulnerability])

/-- One full turn of the compiled graph from a fresh state, returning the
final state and the nodes executed, or the exception that escaped. -/
def runWorkflow (env : Env) (input : String) :
    Except String (AgentState × List GNode) :=
  match intent_node env (AgentState.init input) with
  | Except.error e => Except.error e
  | Except.ok s1 =>
    if routeFromIntent s1 == ("END") then Except.ok (s1, [GNode.intent])
    else
      match runFromGeoQuery env s1 with
      | Except.error e => Except.error e
      | Except.ok r => Except.ok (r.1, GNode.intent :: r.2)

/-- A geocoder that finds no match, for concrete turns. -/
def geocodeNone : String → Except String (Option (ℚ × ℚ)) :=
  fun _ => Except.ok none

/-- Baseline concrete environment: empty completion replies, geocoder miss,
platform up but depth statistic absent, tile extraction failing. -/
def env0 : Env :=
  ⟨Except.ok (""), Except.ok (""), geocodeNone, Except.ok (),
    Except.ok none, Except.error ("")⟩

/-- Environment whose intent completion call raises. -/
def envBoom : Env :=
  ⟨Except.error ("boom"), Except.ok (""), geocodeNone, Except.ok (),
    Except.ok none, Except.error ("")⟩

/-- Environment whose classifier replies with capitalized text. -/
def envUpperNormal : Env :=
  ⟨Except.ok ("Normal"), Except.ok ("ASK_LOCATION"), geocodeNone, Except.ok (),
    Except.ok none, Except.error ("")⟩

/-- Environment whose classifier replies with the exact lowercase literal. -/
def envLowerNormal : Env :=
  ⟨Except.ok ("normal"), Except.ok (""), geocodeNone, Except.ok (),
    Except.ok none, Except.error ("")⟩

/-- Environment for a query turn whose extractor asks for the location. -/
def envQueryAsk : Env :=
  ⟨Except.ok ("query"), Except.ok ("ASK_LOCATION"), geocodeNone, Except.ok (),
    Except.ok none, Except.error ("")⟩

/-- Environment whose extractor reply labels the location twice. -/
def envTwoLoc : Env :=
  ⟨Except.ok ("query"), Except.ok ("Location: A\nLocation: B"), geocodeNone,
    Except.ok (), Except.ok none, Except.error ("")⟩

/-- Environment whose extractor reply carries both labeled lines. -/
def envChennai : Env :=
  ⟨Except.ok ("query"), Except.ok ("Location: Chennai\nAnalysis: flood risk"),
    geocodeNone, Except.ok (), Except.ok none, Except.error ("")⟩

/-- Environment whose geocoder finds a match at a fixed point. -/
def envGeoHit : Env :=
  ⟨Except.ok (""), Except.ok (""), fun _ => Except.ok (some (13, 80)),
    Except.ok (), Except.ok none, Except.error ("")⟩

/-- A state that already carries a location string. -/
def sChennai : AgentState :=
  { AgentState.init ("q") with location := some ("Chennai") }

/-- A state whose coordinates are present but sit on the equator. -/
def sZeroLat : AgentState :=
  { AgentState.init ("q") with lat := some 0, lon := some 80 }

/-- Substring containment is preserved by prepending text. -/
theorem listHasSub_append_right (a b p : List Char)
    (h : listHasSub b p = true) : listHasSub (a ++ b) p = true := by
  induction a with
  | nil => simpa using h
  | cons c cs ih =>
    simp only [List.cons_append, listHasSub, Bool.or_eq_true]
    exact Or.inr ih

/-- C4: flood-risk classification is a pure function of the mean depth with
strict-inequality thresholds: above one half is High, above one fifth up to
one half is Moderate, at or below one fifth is Low, each with its fixed
canned recommendation; the concrete and boundary inputs of the claim
evaluate accordingly. -/
theorem c4_risk_thresholds :
    (∀ d : ℚ, d > 0.5 → riskOfDepth d = (("High"), highRecommendation)) ∧
    (∀ d : ℚ, 0.2 < d → d ≤ 0.5 → riskOfDepth d = (("Moderate"), moderateRecommendation)) ∧
    (∀ d : ℚ, d ≤ 0.2 → riskOfDepth d = (("Low"), lowRecommendation)) ∧
    riskOfDepth 0.6 = (("High"), highRecommendation) ∧
    riskOfDepth 0.3 = (("Moderate"), moderateRecommendation) ∧
    riskOfDepth 0.05 = (("Low"), lowRecommendation) ∧
    riskOfDepth 0.5 = (("Moderate"), moderateRecommendation) ∧
    riskOfDepth 0.2 = (("Low"), lowRecommendation) := by
  have hHigh : ∀ d : ℚ, d > 0.5 → riskOfDepth d = (("High"), highRecommendation) := by
    intro d h
    unfold riskOfDepth
    rw [if_pos h]
  have hMod : ∀ d : ℚ, 0.2 < d → d ≤ 0.5 →
      riskOfDepth d = (("Moderate"), moderateRecommendation) := by
    intro d h1 h2
    unfold riskOfDepth
    rw [if_neg (not_lt.mpr h2), if_pos h1]
  have hLow : ∀ d : ℚ, d ≤ 0.2 → riskOfDepth d = (("Low"), lowRecommendation) := by
    intro d h
    unfold riskOfDepth
    rw [if_neg (not_lt.mpr (h.trans (by norm_num))), if_neg (not_lt.mpr h)]
  exact ⟨hHigh, hMod, hLow, hHigh 0.6 (by norm_num), hMod 0.3 (by norm_num) (by norm_num),
    hLow 0.05 (by norm_num), hMod 0.5 (by norm_num) le_rfl, hLow 0.2 le_rfl⟩

/-- Witness for C4 at the concrete depth value six tenths. -/
theorem c4_witness :
    (0.6 : ℚ) > 0.5 ∧ riskOfDepth 0.6 = (("High"), highRecommendation) :=
  ⟨by norm_num, c4_risk_thresholds.1 0.6 (by norm_num)⟩

/-- C6: with latitude or longitude absent, the node returns the fixed
missing-coordinates error text and the synthetic payload with the fixed
default center and neither layers nor markers; the right-hand side does not
consult the environment, so neither the producer nor any platform call is
involved. -/
theorem c6_missing_coordinates :
    ∀ (env : Env) (s : AgentState), s.lat = none ∨ s.lon = none →
      flood_vulnerability_node env s = missingCoordsResult s ∧
      (missingCoordsResult s).location = s.location ∧
      (missingCoordsResult s).final_result = some missingCoordsMsg ∧
      missingCoordsMapData.centerLat = 11.0168 ∧
      missingCoordsMapData.centerLng = 76.9558 ∧
      missingCoordsMapData.error = some missingCoordsMsg ∧
      missingCoordsMapData.layers = none ∧
      missingCoordsMapData.markers = none ∧
      pyContains missingCoordsMsg ("Missing coordinates") = true := by
  intro env s h
  refine ⟨?_, rfl, rfl, rfl, rfl, rfl, rfl, by decide⟩
  rcases h with h | h <;>
    simp [flood_vulnerability_node, missingCoordsResult, pyTruthyNum, h]

/-- Witness for C6 on a fresh state. -/
theorem c6_witness :
    (AgentState.init ("x")).lat = none ∧
    flood_vulnerability_node env0 (AgentState.init ("x")) =
      missingCoordsResult (AgentState.init ("x")) :=
  ⟨rfl, (c6_missing_coordinates env0 (AgentState.init ("x")) (Or.inl rfl)).1⟩

/-- C7: the resolver queries the geocoder with the fixed country qualifier
appended; a raised provider error or a miss returns the previous state
unchanged (so coordinates stay as they were, absent in every reachable
run), and a hit sets exactly the coordinates of the returned match.  The
node is a total function: no provider outcome escapes it. -/
theorem c7_location_resolver :
    (∀ (env : Env) (s : AgentState) (e : String),
        pyTruthyStr s.location = true →
        env.geocode ((s.location.getD ("")) ++ (", India")) = Except.error e →
        location_helper_node env s = s) ∧
    (∀ (env : Env) (s : AgentState),
        pyTruthyStr s.location = true →
        env.geocode ((s.location.getD ("")) ++ (", India")) = Except.ok none →
        location_helper_node env s = s) ∧
    (∀ (env : Env) (s : AgentState) (la lo : ℚ),
        pyTruthyStr s.location = true →
        env.geocode ((s.location.getD ("")) ++ (", India")) = Except.ok (some (la, lo)) →
        location_helper_node env s = { s with lat := some la, lon := some lo }) := by
  refine ⟨?_, ?_, ?_⟩
  · intro env s e h1 h2
    simp [location_helper_node, h1, h2]
  · intro env s h1 h2
    simp [location_helper_node, h1, h2]
  · intro env s la lo h1 h2
    simp [location_helper_node, h1, h2]

/-- Witness for C7 on a state carrying a location and a geocoder hit. -/
theorem c7_witness :
    pyTruthyStr sChennai.location = true ∧
    envGeoHit.geocode ((sChennai.location.getD ("")) ++ (", India")) =
      Except.ok (some (13, 80)) ∧
    location_helper_node envGeoHit sChennai =
      { sChennai with lat := some 13, lon := some 80 } :=
  ⟨rfl, rfl, c7_location_resolver.2.2 envGeoHit sChennai 13 80 rfl rfl⟩

/-- C9: a coordinate equal to zero is falsy to the node's truthiness guard,
so even with both coordinates present the node answers with the
missing-coordinates error payload instead of running the analysis (the
right-hand side consults no oracle of the environment). -/
theorem c9_zero_coordinate_treated_missing :
    ∀ (env : Env) (s : AgentState) (la lo : ℚ),
      s.lat = some la → s.lon = some lo → la = 0 ∨ lo = 0 →
      flood_vulnerability_node env s = missingCoordsResult s := by
  intro env s la lo hla hlo h
  rcases h with h | h <;> subst h <;>
    simp [flood_vulnerability_node, missingCoordsResult, pyTruthyNum, hla, hlo]

/-- Witness for C9 on an equator point with a present longitude. -/
theorem c9_witness :
    sZeroLat.lat = some 0 ∧ sZeroLat.lon = some 80 ∧
    flood_vulnerability_node env0 sZeroLat = missingCoordsResult sZeroLat :=
  ⟨rfl, rfl, c9_zero_coordinate_treated_missing env0 sZeroLat 0 80 rfl rfl (Or.inl rfl)⟩

/-- String-level corollary: containment survives prepending text. -/
theorem pyContains_append_right (a b p : String) (h : pyContains b p = true) :
    pyContains (a ++ b) p = true :=
  listHasSub_append_right a.toList b.toList p.toList h

/-- A successful intent completion gives the classifier's whitelist result. -/
theorem intent_node_ok (env : Env) (s : AgentState) (t : String)
    (h : env.intentReply = Except.ok t) :
    intent_node env s = Except.ok { s with intent := parsedIntent (pyStrip t) } := by
  simp [intent_node, h]

/-- A non-`normal` stripped reply never routes as `normal`. -/
theorem parsedIntent_ne_normal (t : String) (h : pyStrip t ≠ ("normal")) :
    (parsedIntent (pyStrip t) == some ("normal")) = false := by
  unfold parsedIntent
  split
  · rw [beq_eq_false_iff_ne]
    exact fun hc => h (Option.some.inj hc)
  · rw [beq_eq_false_iff_ne]
    exact fun hc => Option.noConfusion hc

/-- A successful extractor completion means the extractor node returns. -/
theorem geo_query_node_ok (env : Env) (s : AgentState) (r : String)
    (h : env.geoReply = Except.ok r) :
    ∃ s2, geo_query_node env s = Except.ok s2 := by
  simp only [geo_query_node, h]
  split
  · exact ⟨s, rfl⟩
  · split
    · exact ⟨s, rfl⟩
    · exact ⟨_, rfl⟩

/-- A reply carrying either sentinel makes the extractor return the state
untouched. -/
theorem geo_query_node_sentinel (env : Env) (s : AgentState) (r : String)
    (h : env.geoReply = Except.ok r)
    (hs : pyContains (pyStrip r) ("ASK_LOCATION") = true ∨
      pyContains (pyStrip r) ("ASK_ANALYSIS") = true) :
    geo_query_node env s = Except.ok s := by
  simp only [geo_query_node, h]
  rcases hs with hs | hs
  · rw [if_pos hs]
  · by_cases h1 : pyContains (pyStrip r) ("ASK_LOCATION") = true
    · rw [if_pos h1]
    · rw [if_neg h1, if_pos hs]

/-- With the extractor completion succeeding, the tail of the graph runs to
completion. -/
theorem runFromGeoQuery_ok (env : Env) (s : AgentState) (r : String)
    (h : env.geoReply = Except.ok r) :
    ∃ out, runFromGeoQuery env s = Except.ok out := by
  obtain ⟨s2, h2⟩ := geo_query_node_ok env s r h
  refine ⟨(flood_vulnerability_node env (location_helper_node env s2),
    [GNode.geo_query, GNode.location_helper, GNode.flood_vulnerability]), ?_⟩
  unfold runFromGeoQuery
  rw [h2]

/-- Whatever the tail of the graph returns, it executed exactly the three
remaining nodes in order. -/
theorem runFromGeoQuery_nodes (env : Env) (s : AgentState)
    (out : AgentState × List GNode) (h : runFromGeoQuery env s = Except.ok out) :
    out.2 = [GNode.geo_query, GNode.location_helper, GNode.flood_vulnerability] := by
  unfold runFromGeoQuery at h
  cases hg : geo_query_node env s with
  | error e => rw [hg] at h; exact Except.noConfusion h
  | ok s2 =>
    rw [hg] at h
    injection h with h
    rw [← h]

/-- C8: every node is an immutable update on the turn state: the classifier
may change only `intent`, the extractor only `location` and `analysis`, the
resolver only `lat` and `lon`, and the producer node only `final_result`
and the map payload (`map_object`, `map_data`); in particular `input` is
never changed by any node. -/
theorem c8_frame_immutability :
    (∀ (env : Env) (s s' : AgentState), intent_node env s = Except.ok s' →
      s' = { s with intent := s'.intent }) ∧
    (∀ (env : Env) (s s' : AgentState), geo_query_node env s = Except.ok s' →
      s' = { s with location := s'.location, analysis := s'.analysis }) ∧
    (∀ (env : Env) (s : AgentState),
      location_helper_node env s =
        { s with lat := (location_helper_node env s).lat,
                 lon := (location_helper_node env s).lon }) ∧
    (∀ (env : Env) (s : AgentState),
      flood_vulnerability_node env s =
        { s with final_result := (flood_vulnerability_node env s).final_result,
                 map_object := (flood_vulnerability_node env s).map_object,
                 map_data := (flood_vulnerability_node env s).map_data }) := by
  refine ⟨?_, ?_, ?_, ?_⟩
  · intro env s s' h
    cases henv : env.intentReply with
    | error e => simp [intent_node, henv] at h
    | ok t =>
      simp only [intent_node, henv, Except.ok.injEq] at h
      subst h
      rfl
  · intro env s s' h
    cases henv : env.geoReply with
    | error e => simp [geo_query_node, henv] at h
    | ok t =>
      simp only [geo_query_node, henv] at h
      split at h
      · injection h with h; subst h; rfl
      · split at h
        · injection h with h; subst h; rfl
        · injection h with h; subst h; rfl
  · intro env s
    unfold location_helper_node
    split
    · rfl
    · split <;> rfl
  · intro env s
    unfold flood_vulnerability_node
    split <;> rfl

/-- Witness for C8 on a fresh state and the baseline environment. -/
theorem c8_witness :
    intent_node env0 (AgentState.init ("x")) = Except.ok (AgentState.init ("x")) ∧
    AgentState.init ("x") =
      { AgentState.init ("x") with intent := (AgentState.init ("x")).intent } :=
  ⟨rfl, c8_frame_immutability.1 env0 (AgentState.init ("x")) (AgentState.init ("x")) rfl⟩

/-- C3 counterexample: the classifier node has no guard, so a raised
completion-provider error escapes the whole workflow as a fault instead of
being embedded in the state. -/
theorem c3_counterexample :
    runWorkflow envBoom ("hi") = Except.error ("boom") := rfl

/-- C3 amended: the resolver and producer nodes absorb every geocoder and
platform outcome, so whenever the two unguarded completion calls succeed
the workflow always returns a state; only completion-provider failures in
the classifier and extractor nodes propagate out. -/
theorem c3_amended_no_raise_after_completions :
    ∀ (env : Env) (input t r : String),
      env.intentReply = Except.ok t → env.geoReply = Except.ok r →
      ∃ out, runWorkflow env input = Except.ok out := by
  intro env input t r h1 h2
  unfold runWorkflow
  rw [intent_node_ok env (AgentState.init input) t h1]
  by_cases hr : (routeFromIntent { AgentState.init input with
      intent := parsedIntent (pyStrip t) } == ("END")) = true
  · exact ⟨({ AgentState.init input with intent := parsedIntent (pyStrip t) },
      [GNode.intent]), by simp [hr]⟩
  · obtain ⟨out, hout⟩ := runFromGeoQuery_ok env
      { AgentState.init input with intent := parsedIntent (pyStrip t) } r h2
    exact ⟨(out.1, GNode.intent :: out.2), by simp [hr, hout]⟩

/-- Witness for C3's amended statement on the baseline environment. -/
theorem c3_witness :
    env0.intentReply = Except.ok ("") ∧ env0.geoReply = Except.ok ("") ∧
    ∃ out, runWorkflow env0 ("x") = Except.ok out :=
  ⟨rfl, rfl, c3_amended_no_raise_after_completions env0 ("x") ("") ("") rfl rfl⟩

/-- C2 counterexample: the classifier reply `Normal` equals `normal` after
trimming and lowercasing, but the whitelist is case-sensitive, so instead
of terminating at the intent node the workflow runs all four nodes and
populates the result fields. -/
theorem c2_counterexample :
    pyStrip (pyLower ("Normal")) = ("normal") ∧
    runWorkflow envUpperNormal ("hi") =
      Except.ok (missingCoordsResult (AgentState.init ("hi")),
        [GNode.intent, GNode.geo_query, GNode.location_helper, GNode.flood_vulnerability]) ∧
    [GNode.intent, GNode.geo_query, GNode.location_helper, GNode.flood_vulnerability] ≠
      ([GNode.intent] : List GNode) :=
  ⟨rfl, rfl, by decide⟩

/-- C2 amended: routing from the intent node is by the case-sensitive exact
literal: a reply whose **whitespace-stripped** text is exactly `normal`
terminates the turn at the intent node with every other field still absent,
and any other reply (garbage included) sends the turn through `geo_query`
and, the remaining edges being unconditional, through all four nodes. -/
theorem c2_amended_case_sensitive_routing :
    (∀ (env : Env) (input t : String), env.intentReply = Except.ok t →
      pyStrip t = ("normal") →
      runWorkflow env input =
        Except.ok ({ AgentState.init input with intent := some ("normal") },
          [GNode.intent])) ∧
    (∀ (env : Env) (input t : String) (s : AgentState) (ns : List GNode),
      env.intentReply = Except.ok t → pyStrip t ≠ ("normal") →
      runWorkflow env input = Except.ok (s, ns) →
      ns = [GNode.intent, GNode.geo_query, GNode.location_helper,
        GNode.flood_vulnerability]) := by
  constructor
  · intro env input t h1 h2
    unfold runWorkflow
    rw [intent_node_ok env (AgentState.init input) t h1]
    have hp : parsedIntent (pyStrip t) = some ("normal") := by
      simp [parsedIntent, h2]
    simp [routeFromIntent, hp]
  · intro env input t s ns h1 h2 h3
    unfold runWorkflow at h3
    rw [intent_node_ok env (AgentState.init input) t h1] at h3
    have hb := parsedIntent_ne_normal t h2
    have hroute : (routeFromIntent { AgentState.init input with
        intent := parsedIntent (pyStrip t) } == ("END")) = false := by
      simp only [routeFromIntent, hb]
      decide
    have hniff : ¬((routeFromIntent { AgentState.init input with
        intent := parsedIntent (pyStrip t) } == ("END")) = true) := by
      simp [hroute]
    dsimp only at h3
    rw [if_neg hniff] at h3
    cases hq : runFromGeoQuery env
        { AgentState.init input with intent := parsedIntent (pyStrip t) } with
    | error e =>
      rw [hq] at h3
      exact Except.noConfusion h3
    | ok rr =>
      rw [hq] at h3
      injection h3 with h3
      have hsnd : GNode.intent :: rr.2 = ns := congrArg Prod.snd h3
      rw [← hsnd, runFromGeoQuery_nodes env _ rr hq]

/-- Witness for C2's amended statement: the exact lowercase literal ends
the turn at the intent node. -/
theorem c2_witness :
    envLowerNormal.intentReply = Except.ok ("normal") ∧
    pyStrip ("normal") = ("normal") ∧
    runWorkflow envLowerNormal ("hey") =
      Except.ok ({ AgentState.init ("hey") with intent := some ("normal") },
        [GNode.intent]) :=
  ⟨rfl, rfl, c2_amended_case_sensitive_routing.1 envLowerNormal ("hey") ("normal") rfl rfl⟩

/-- C1: on a clarification turn (the extractor reply contains a sentinel
anywhere) the extractor node itself returns the state untouched and the
right-hand side consults neither the geocoder nor the platform oracles, so
`location` and `analysis` stay absent and neither the Location Resolver
nor the Producer is called; but the graph's unconditional edges still
advance through `location_helper` and `flood_vulnerability`, which
overwrites `final_result` with the missing-coordinates error and attaches
the synthetic error payload instead of ending the turn with the state
unchanged. -/
theorem c1_sentinel_turn_behavior :
    ∀ (env : Env) (input t r : String),
      env.intentReply = Except.ok t → pyStrip t ≠ ("normal") →
      env.geoReply = Except.ok r →
      (pyContains (pyStrip r) ("ASK_LOCATION") = true ∨
        pyContains (pyStrip r) ("ASK_ANALYSIS") = true) →
      runWorkflow env input =
        Except.ok (missingCoordsResult
            { AgentState.init input with intent := parsedIntent (pyStrip t) },
          [GNode.intent, GNode.geo_query, GNode.location_helper,
            GNode.flood_vulnerability]) := by
  intro env input t r h1 h2 h3 h4
  unfold runWorkflow
  rw [intent_node_ok env (AgentState.init input) t h1]
  have hb := parsedIntent_ne_normal t h2
  have hg := geo_query_node_sentinel env
    { AgentState.init input with intent := parsedIntent (pyStrip t) } r h3 h4
  have hroute : (routeFromIntent { AgentState.init input with
      intent := parsedIntent (pyStrip t) } == ("END")) = false := by
    simp only [routeFromIntent, hb]
    decide
  have hniff : ¬((routeFromIntent { AgentState.init input with
      intent := parsedIntent (pyStrip t) } == ("END")) = true) := by
    simp [hroute]
  dsimp only
  rw [if_neg hniff]
  unfold runFromGeoQuery
  rw [hg]
  rfl

/-- Witness for C1: a query turn whose extractor asks for the location. -/
theorem c1_witness :
    envQueryAsk.intentReply = Except.ok ("query") ∧
    envQueryAsk.geoReply = Except.ok ("ASK_LOCATION") ∧
    runWorkflow envQueryAsk ("Is Chennai flood prone?") =
      Except.ok (missingCoordsResult
          { AgentState.init ("Is Chennai flood prone?") with
            intent := parsedIntent (pyStrip ("query")) },
        [GNode.intent, GNode.geo_query, GNode.location_helper,
          GNode.flood_vulnerability]) :=
  ⟨rfl, rfl,
    c1_sentinel_turn_behavior envQueryAsk ("Is Chennai flood prone?") ("query")
      ("ASK_LOCATION") rfl (by decide) rfl (Or.inl (by decide))⟩

/-- Once the scan holds a non-empty location, lines that do not carry the
location label leave it untouched. -/
theorem foldl_lineStep_loc_stable (l2 : List String) :
    ∀ (acc : Option String × Option String) (v : String),
      acc.1 = some v → v.isEmpty = false →
      (∀ l ∈ l2, lineIsLoc (pyStrip l) = false) →
      (List.foldl lineStep acc l2).1 = some v := by
  induction l2 with
  | nil =>
    intro acc v h _ _
    simpa using h
  | cons x xs ih =>
    intro acc v h hv hall
    have hx : lineIsLoc (pyStrip x) = false := hall x (List.mem_cons_self x xs)
    have hxs : ∀ l ∈ xs, lineIsLoc (pyStrip l) = false :=
      fun l hl => hall l (List.mem_cons_of_mem x hl)
    rw [List.foldl_cons]
    refine ih (lineStep acc x) v ?_ hv hxs
    simp only [lineStep]
    rw [if_neg (by simp [hx])]
    have hval : pyTruthyStr acc.1 = true := by
      rw [h]
      simp [pyTruthyStr, hv]
    split
    · exact h
    · rw [if_neg (by simp [hval])]
      exact h

/-- The analysis slot is only ever written by analysis-labeled lines. -/
theorem foldl_lineStep_ana_stable (l2 : List String) :
    ∀ (acc : Option String × Option String) (v : String),
      acc.2 = some v →
      (∀ l ∈ l2, lineIsAna (pyStrip l) = false) →
      (List.foldl lineStep acc l2).2 = some v := by
  induction l2 with
  | nil =>
    intro acc v h _
    simpa using h
  | cons x xs ih =>
    intro acc v h hall
    have hx : lineIsAna (pyStrip x) = false := hall x (List.mem_cons_self x xs)
    have hxs : ∀ l ∈ xs, lineIsAna (pyStrip l) = false :=
      fun l hl => hall l (List.mem_cons_of_mem x hl)
    rw [List.foldl_cons]
    refine ih (lineStep acc x) v ?_ hxs
    simp only [lineStep]
    split
    · exact h
    · rw [if_neg (by simp [hx])]
      split
      · exact h
      · exact h

/-- C5 counterexample: with two location-labeled lines the scan keeps the
last one, not the first: the reply yields location `B`, not `A`. -/
theorem c5_counterexample :
    geo_query_node envTwoLoc (AgentState.init ("q")) =
      Except.ok { AgentState.init ("q") with location := some ("B"), analysis := none } ∧
    (("B") : String) ≠ ("A") :=
  ⟨rfl, by decide⟩

/-- C5 amended: the line scan sets `location` to the trimmed remainder of
the **last** line beginning with `location:` (each labeled line overwrites
the previous value; stated here for a non-empty remainder, which later bare
lines can then never displace), sets `analysis` to the trimmed remainder of
the last line beginning with `analysis:`, and takes a bare non-empty line
mentioning neither `analysis:` nor `reply:` as the location while none (or
an empty one) is held; the reply `Location: Chennai` / `Analysis: flood
risk` yields exactly location `Chennai` and analysis `flood risk`. -/
theorem c5_amended_line_scan :
    (∀ (l1 : List String) (L : String) (l2 : List String),
      lineIsLoc (pyStrip L) = true →
      (pyStrip (pyAfterColon (pyStrip L))).isEmpty = false →
      (∀ l ∈ l2, lineIsLoc (pyStrip l) = false) →
      (parseLines (l1 ++ L :: l2)).1 = some (pyStrip (pyAfterColon (pyStrip L)))) ∧
    (∀ (l1 : List String) (L : String) (l2 : List String),
      lineIsAna (pyStrip L) = true → lineIsLoc (pyStrip L) = false →
      (∀ l ∈ l2, lineIsAna (pyStrip l) = false) →
      (parseLines (l1 ++ L :: l2)).2 = some (pyStrip (pyAfterColon (pyStrip L)))) ∧
    (∀ (ls : List String) (L : String),
      (parseLines ls).1 = none →
      lineIsLoc (pyStrip L) = false → lineIsAna (pyStrip L) = false →
      lineBareOk (pyStrip L) = true →
      (parseLines (ls ++ [L])).1 = some (pyStrip L)) ∧
    geo_query_node envChennai (AgentState.init ("q")) =
      Except.ok { AgentState.init ("q") with location := some ("Chennai"), analysis := some ("flood risk") } := by
  refine ⟨?_, ?_, ?_, rfl⟩
  · intro l1 L l2 hL hne hall
    rw [parseLines, List.foldl_append, List.foldl_cons]
    refine foldl_lineStep_loc_stable l2 _ _ ?_ hne hall
    simp only [lineStep]
    rw [if_pos hL]
  · intro l1 L l2 hA hLoc hall
    rw [parseLines, List.foldl_append, List.foldl_cons]
    refine foldl_lineStep_ana_stable l2 _ _ ?_ hall
    simp only [lineStep]
    rw [if_neg (by simp [hLoc]), if_pos hA]
  · intro ls L h1 h2 h3 h4
    rw [parseLines, List.foldl_append, List.foldl_cons, List.foldl_nil]
    have h1' : (List.foldl lineStep (none, none) ls).1 = none := by
      rw [parseLines] at h1
      exact h1
    simp only [lineStep]
    rw [if_neg (by simp [h2]), if_neg (by simp [h3]),
      if_pos (by simp [h1', pyTruthyStr, h4])]

/-- Witness for C5's amended statement on a single labeled line. -/
theorem c5_witness :
    lineIsLoc (pyStrip ("Location: X")) = true ∧
    (pyStrip (pyAfterColon (pyStrip ("Location: X")))).isEmpty = false ∧
    (parseLines ([] ++ ("Location: X") :: [])).1 =
      some (pyStrip (pyAfterColon (pyStrip ("Location: X")))) :=
  ⟨by decide, by decide,
    c5_amended_line_scan.1 [] ("Location: X") [] (by decide) (by decide)
      (by simp)⟩

set_option maxRecDepth 8192 in
/-- C10: when the zonal-statistics result carries no depth value the
producer substitutes zero, so the narrative reports the Low tier with the
Low recommendation instead of signaling that the statistic was
unavailable. -/
theorem c10_missing_depth_defaults_low :
    ∀ (env : Env) (lat lon : ℚ) (location_name : Option String),
      env.mapInit = Except.ok () → env.eeAnalysis = Except.ok none →
      (flood_vulnerability env lat lon location_name).1 =
        analysisText lat lon 0 location_name (("Low")) lowRecommendation ∧
      pyContains (flood_vulnerability env lat lon location_name).1
        (("**Flood Risk Level:** Low")) = true ∧
      pyContains (flood_vulnerability env lat lon location_name).1
        lowRecommendation = true := by
  intro env lat lon name h1 h2
  have hrisk : riskOfDepth 0 = (("Low"), lowRecommendation) := by
    unfold riskOfDepth
    rw [if_neg (by norm_num), if_neg (by norm_num)]
  have htext : (flood_vulnerability env lat lon name).1 =
      analysisText lat lon 0 name (("Low")) lowRecommendation := by
    simp only [flood_vulnerability, h1, h2]
    simp [hrisk]
  refine ⟨htext, ?_, ?_⟩
  · rw [htext, analysisText]
    exact pyContains_append_right _ _ _ (by decide)
  · rw [htext, analysisText]
    apply pyContains_append_right
    rw [analysisTail]
    apply pyContains_append_right
    apply pyContains_append_right
    apply pyContains_append_right
    apply pyContains_append_right
    decide

/-- Witness for C10 on the baseline environment at a concrete point. -/
theorem c10_witness :
    env0.mapInit = Except.ok () ∧ env0.eeAnalysis = Except.ok none ∧
    pyContains (flood_vulnerability env0 7 8 none).1 lowRecommendation = true :=
  ⟨rfl, rfl, (c10_missing_depth_defaults_low env0 7 8 none rfl rfl).2.2⟩

end GeoChat
